import Mathlib

/-!
Verification of src/common/createI18n/createI18n.ts (hono-i18n).

The file shallowly embeds the library core: locale resolution inside the
middleware body, the per-request context slot written by the middleware and
read by the accessor, the construction-time validation, and the delegation
boundary to the external translation engine (core-i18n).
-/

namespace HonoI18n

/-- Value returned by a caller-supplied `getLocale` callback. The TypeScript
signature `GetLocale` allows `string | null | undefined`. -/
inductive GetLocaleValue where
  | str (s : String)
  | nullValue
  | undefinedValue
deriving DecidableEq, Repr

/-- Message catalog: a JavaScript object mapping locale tags to message
structures of an opaque shape `M`, embedded as an association list.
`Object.keys(messages)` corresponds to `keys`. -/
abbrev Messages (M : Type) := List (String × M)

/-- Embedding of `Object.keys(messages)` (createI18n.ts lines 77 and 83). -/
def keys {M : Type} (messages : Messages M) : List String :=
  messages.map Prod.fst

/-- The per-request `i18n` context variable, the object
`{ locale: resolvedLocale }` stored by `c.set("i18n", ...)` on line 45. -/
structure I18nVar where
  locale : String
deriving DecidableEq, Repr

/-- The slice of the per-request Hono context relevant to this library: the
optional `i18n` variable slot. `c.get("i18n")` yields `undefined` (here
`none`) before any `c.set` has run for this request. -/
structure ReqCtx where
  i18n : Option I18nVar
deriving DecidableEq, Repr

/-- Record of a call into the external translation engine, the function
`createTranslate(messages, locale)` imported from the package core-i18n.
The engine is an external collaborator outside this repository, so the
embedding records exactly which catalog/locale pair is handed over. -/
structure TranslateCall (M : Type) where
  messages : Messages M
  locale : String
deriving DecidableEq

/-- Delegation boundary to core-i18n: returns the record of the arguments
passed (createI18n.ts line 28). -/
def createTranslate {M : Type} (messages : Messages M) (locale : String) :
    TranslateCall M :=
  { messages := messages, locale := locale }

/-- Locale resolution performed in the middleware body, createI18n.ts
line 43: `typeof selectedLocale === "string" && locales.includes(selectedLocale)
? selectedLocale : defaultLocale`. -/
def resolveLocale (locales : List String) (defaultLocale : String)
    (selectedLocale : GetLocaleValue) : String :=
  match selectedLocale with
  | .str s => if locales.contains s then s else defaultLocale
  | .nullValue => defaultLocale
  | .undefinedValue => defaultLocale

/-- The context-variable write the middleware performs, createI18n.ts
line 45: `c.set("i18n", { locale: locale })`, applied to the invoking
request context, where `v` is the value the getter returned on line 42. -/
def bindCtx (locales : List String) (defaultLocale : String)
    (v : GetLocaleValue) (c : ReqCtx) : ReqCtx :=
  { c with i18n := some { locale := resolveLocale locales defaultLocale v } }

/-- The middleware body returned by `createI18nMiddleware` (createI18n.ts
lines 41 to 48): the getter has been invoked and produced `v`; the resolved
locale is written into the context; then `next` receives control with the
updated context. The result is whatever downstream handling produces. -/
def i18nMiddleware {A : Type} (locales : List String) (defaultLocale : String)
    (v : GetLocaleValue) (c : ReqCtx) (next : ReqCtx → A) : A :=
  next (bindCtx locales defaultLocale v c)

/-- The accessor produced by `createGetI18n` (createI18n.ts lines 18 to 30):
reads `c.get("i18n")`; when the slot is absent the code throws
`new Error("createI18nMiddleware middleware not initialized")`, embedded as
`Except.error` carrying the message; otherwise it destructures the stored
locale and delegates to `createTranslate(messages, locale)`. -/
def getI18n {M : Type} (messages : Messages M) (c : ReqCtx) :
    Except String (TranslateCall M) :=
  match c.i18n with
  | none => Except.error "createI18nMiddleware middleware not initialized"
  | some i18n => Except.ok (createTranslate messages i18n.locale)

/-- What the two closures returned by `createI18n` capture: `getI18n`
captures `messages`; `i18nMiddleware` captures
`locales = Object.keys(messages)` together with `defaultLocale`. -/
structure I18nInstance (M : Type) where
  messages : Messages M
  locales : List String
  defaultLocale : String
deriving DecidableEq

/-- Embedding of `createI18n` (createI18n.ts lines 64 to 85): when
`Object.keys(messages)` does not include `defaultLocale` the code throws
`new Error("defaultLocale is not available in messages")`; otherwise it
returns the pair of closures, recorded here by the data they capture. -/
def createI18n {M : Type} (messages : Messages M) (defaultLocale : String) :
    Except String (I18nInstance M) :=
  if (keys messages).contains defaultLocale then
    Except.ok
      { messages := messages
        locales := keys messages
        defaultLocale := defaultLocale }
  else
    Except.error "defaultLocale is not available in messages"

/-- Observable effects of one run of the middleware body, in program order. -/
inductive MwEvent where
  | setVar (value : I18nVar)
  | callNext
deriving DecidableEq, Repr

/-- The sequence of effects the middleware body performs, read off
createI18n.ts lines 42 to 47 in source order: the `c.set` on line 45, then
`await next()` on line 47. -/
def i18nMiddlewareTrace (locales : List String) (defaultLocale : String)
    (v : GetLocaleValue) : List MwEvent :=
  [MwEvent.setVar { locale := resolveLocale locales defaultLocale v },
   MwEvent.callNext]

/-- An operation on the per-request context slot. -/
inductive SlotOp where
  | write (value : I18nVar)
  | read
deriving DecidableEq, Repr

/-- Whether a slot operation is a write. -/
def SlotOp.isWrite : SlotOp → Bool
  | .write _ => true
  | .read => false

/-- Context-slot operations the middleware body performs for one request:
exactly the single `c.set("i18n", ...)` on createI18n.ts line 45. -/
def middlewareSlotOps (locales : List String) (defaultLocale : String)
    (v : GetLocaleValue) : List SlotOp :=
  [SlotOp.write { locale := resolveLocale locales defaultLocale v }]

/-- Context-slot operations one call of `getI18n` performs: the single
`c.get("i18n")` on createI18n.ts line 20. -/
def getI18nSlotOps : List SlotOp :=
  [SlotOp.read]

/-- Semantics of the per-request slot supplied by the framework: a write
stores its value, a read leaves the slot unchanged. -/
def applySlotOp (s : Option I18nVar) : SlotOp → Option I18nVar
  | .write value => some value
  | .read => s

/-- Runs a sequence of slot operations against an initial slot state. -/
def runSlotOps (s : Option I18nVar) (ops : List SlotOp) : Option I18nVar :=
  ops.foldl applySlotOp s

/-- A snapshot of the in-flight requests: each request id owns an
independent context instance created by the framework. -/
def World : Type := Nat → ReqCtx

/-- The middleware run for request `r` with getter value `v`: the body acts
only through the context object owned by that request (`c.set` on `c`), lifted
pointwise to the world of in-flight requests. -/
def bindRequest (locales : List String) (defaultLocale : String)
    (v : GetLocaleValue) (r : Nat) (w : World) : World :=
  fun q => if q = r then bindCtx locales defaultLocale v (w q) else w q

/-- Concrete catalog from the test suite (createI18n.test.ts lines 10 to
13), with the opaque message structures taken to be strings. -/
def demoMessages : Messages String :=
  [("en-EN", "Hi!"), ("de-DE", "Hallo!")]

/-- Claim C1: for a getter value that is a string and an exact member of the
supported locales, the resolved locale is that value; in every other case
(null, undefined, or a string not present in the list) the resolved locale
is the default locale, so matching is exact membership and nothing else. -/
theorem c1_locale_resolution_exact (locales : List String)
    (defaultLocale : String) (v : GetLocaleValue) :
    (∀ s, v = GetLocaleValue.str s → s ∈ locales →
      resolveLocale locales defaultLocale v = s) ∧
    ((∀ s, v = GetLocaleValue.str s → s ∉ locales) →
      resolveLocale locales defaultLocale v = defaultLocale) := by
  constructor
  · intro s hv hs
    subst hv
    simp [resolveLocale, hs]
  · intro h
    cases v with
    | str s =>
        have hs := h s rfl
        simp [resolveLocale, hs]
    | nullValue => rfl
    | undefinedValue => rfl

/-- Concrete run of the C1 theorem on the catalog of the test suite. -/
theorem c1_locale_resolution_exact_witness :
    resolveLocale ["en-EN", "de-DE"] "en-EN" (GetLocaleValue.str "de-DE") =
      "de-DE" :=
  (c1_locale_resolution_exact ["en-EN", "de-DE"] "en-EN"
      (GetLocaleValue.str "de-DE")).1 "de-DE" rfl (by decide)

/-- Claim C2: construction fails with the message
"defaultLocale is not available in messages" exactly when the default
locale is not a key of the catalog, and exactly in the complementary case
it returns the instance, so an error result never carries the middleware or
the accessor. -/
theorem c2_construction_validation {M : Type} (messages : Messages M)
    (defaultLocale : String) :
    (createI18n messages defaultLocale =
        Except.error "defaultLocale is not available in messages" ↔
      defaultLocale ∉ keys messages) ∧
    (defaultLocale ∈ keys messages ↔
      createI18n messages defaultLocale =
        Except.ok
          { messages := messages
            locales := keys messages
            defaultLocale := defaultLocale }) := by
  by_cases h : defaultLocale ∈ keys messages <;>
    simp [createI18n, h]

/-- Concrete run of the C2 theorem: construction with a default locale
absent from the test catalog fails with the configuration error. -/
theorem c2_construction_validation_witness :
    createI18n demoMessages "tr-TR" =
      Except.error "defaultLocale is not available in messages" :=
  (c2_construction_validation demoMessages "tr-TR").1.mpr (by decide)

/-- Claim C3, counterexample: on a request whose slot is absent the
accessor raises the message
"createI18nMiddleware middleware not initialized", which differs from the
claimed message "middleware not initialized". -/
theorem c3_message_counterexample :
    getI18n demoMessages { i18n := none } ≠
      Except.error "middleware not initialized" ∧
    getI18n demoMessages { i18n := none } =
      Except.error "createI18nMiddleware middleware not initialized" := by
  refine ⟨fun h => ?_, rfl⟩
  exact absurd (Except.error.inj h) (by decide)

/-- Claim C3 (amended): on a request whose context slot is absent the
accessor fails with the error message
"createI18nMiddleware middleware not initialized" and never substitutes a
default locale. -/
theorem c3_uninitialized_access_fails {M : Type} (messages : Messages M)
    (c : ReqCtx) (h : c.i18n = none) :
    getI18n messages c =
      Except.error "createI18nMiddleware middleware not initialized" := by
  simp [getI18n, h]

/-- Concrete run of the amended C3 theorem on the test catalog. -/
theorem c3_uninitialized_access_fails_witness :
    getI18n demoMessages { i18n := none } =
      Except.error "createI18nMiddleware middleware not initialized" :=
  c3_uninitialized_access_fails demoMessages { i18n := none } rfl

/-- Claim C4: whenever the slot is present, the accessor obtained from a
successful construction delegates to the external factory with exactly the
construction-time catalog and the stored locale as the pair of arguments. -/
theorem c4_accessor_delegation {M : Type} (messages : Messages M)
    (defaultLocale : String) (inst : I18nInstance M)
    (hok : createI18n messages defaultLocale = Except.ok inst)
    (c : ReqCtx) (stored : I18nVar) (hslot : c.i18n = some stored) :
    getI18n inst.messages c =
      Except.ok { messages := messages, locale := stored.locale } := by
  have hmsg : inst.messages = messages := by
    unfold createI18n at hok
    split at hok
    · cases hok; rfl
    · cases hok
  simp [getI18n, hslot, createTranslate, hmsg]

/-- Concrete run of the C4 theorem on the test catalog with a bound slot. -/
theorem c4_accessor_delegation_witness :
    getI18n demoMessages { i18n := some { locale := "de-DE" } } =
      Except.ok { messages := demoMessages, locale := "de-DE" } :=
  c4_accessor_delegation demoMessages "en-EN"
    { messages := demoMessages
      locales := keys demoMessages
      defaultLocale := "en-EN" }
    rfl { i18n := some { locale := "de-DE" } } { locale := "de-DE" } rfl

/-- Claim C5: a successful construction derives the supported locales as
the key set of the catalog, and the context write of the middleware tests
membership against exactly that derived list. -/
theorem c5_locales_derived_from_catalog {M : Type} (messages : Messages M)
    (defaultLocale : String) (inst : I18nInstance M)
    (hok : createI18n messages defaultLocale = Except.ok inst) :
    inst.locales = keys messages ∧
    ∀ v c, bindCtx inst.locales inst.defaultLocale v c =
      { c with
        i18n := some
          { locale := resolveLocale (keys messages) inst.defaultLocale v } } := by
  have hloc : inst.locales = keys messages := by
    unfold createI18n at hok
    split at hok
    · cases hok; rfl
    · cases hok
  exact ⟨hloc, fun v c => by rw [bindCtx, hloc]⟩

/-- Concrete run of the C5 theorem on the test catalog. -/
theorem c5_locales_derived_from_catalog_witness :
    I18nInstance.locales
      { messages := demoMessages
        locales := keys demoMessages
        defaultLocale := "en-EN" } = keys demoMessages :=
  (c5_locales_derived_from_catalog demoMessages "en-EN"
    { messages := demoMessages
      locales := keys demoMessages
      defaultLocale := "en-EN" } rfl).1

/-- Claim C6: in the middleware body the context write strictly precedes
the call to next in the effect trace, and the context handed to downstream
handling already carries the bound locale, so downstream code in the same
request never observes an uninitialized slot. -/
theorem c6_write_before_next {A : Type} (locales : List String)
    (defaultLocale : String) (v : GetLocaleValue) (c : ReqCtx)
    (next : ReqCtx → A) :
    (∀ i, (i18nMiddlewareTrace locales defaultLocale v).get? i =
        some MwEvent.callNext →
      ∃ j, j < i ∧ (i18nMiddlewareTrace locales defaultLocale v).get? j =
        some (MwEvent.setVar
          { locale := resolveLocale locales defaultLocale v })) ∧
    ∃ cBound, i18nMiddleware locales defaultLocale v c next = next cBound ∧
      cBound.i18n = some { locale := resolveLocale locales defaultLocale v } := by
  constructor
  · intro i hi
    match i with
    | 0 => simp [i18nMiddlewareTrace] at hi
    | 1 => exact ⟨0, Nat.zero_lt_one, rfl⟩
    | n + 2 => simp [i18nMiddlewareTrace] at hi
  · exact ⟨bindCtx locales defaultLocale v c, rfl, rfl⟩

/-- Concrete run of the C6 theorem: in the trace of the middleware on the
test catalog, the write event precedes the next event at index one. -/
theorem c6_write_before_next_witness :
    ∃ j, j < 1 ∧
      (i18nMiddlewareTrace ["en-EN", "de-DE"] "en-EN"
          (GetLocaleValue.str "de-DE")).get? j =
        some (MwEvent.setVar
          { locale := resolveLocale ["en-EN", "de-DE"] "en-EN"
              (GetLocaleValue.str "de-DE") }) :=
  (c6_write_before_next ["en-EN", "de-DE"] "en-EN" (GetLocaleValue.str "de-DE")
    { i18n := none } id).1 1 rfl

/-- Claim C7: a middleware run for one request mutates only the slot of
that request; every other request context is untouched, and two requests
processed in either interleaving each observe exactly their own resolved
locale. -/
theorem c7_request_isolation (locales : List String) (defaultLocale : String)
    (v1 v2 : GetLocaleValue) (r1 r2 : Nat) (w : World) (hne : r1 ≠ r2) :
    (∀ q, q ≠ r1 → bindRequest locales defaultLocale v1 r1 w q = w q) ∧
    (bindRequest locales defaultLocale v2 r2
        (bindRequest locales defaultLocale v1 r1 w) r1).i18n =
      some { locale := resolveLocale locales defaultLocale v1 } ∧
    (bindRequest locales defaultLocale v2 r2
        (bindRequest locales defaultLocale v1 r1 w) r2).i18n =
      some { locale := resolveLocale locales defaultLocale v2 } := by
  refine ⟨fun q hq => by simp [bindRequest, hq], ?_, ?_⟩
  · simp [bindRequest, hne, bindCtx]
  · simp [bindRequest, bindCtx]

/-- Concrete run of the C7 theorem: two requests with different locale
signals each keep their own binding. -/
theorem c7_request_isolation_witness :
    (bindRequest ["en-EN", "de-DE"] "en-EN" (GetLocaleValue.str "tr-TR") 1
        (bindRequest ["en-EN", "de-DE"] "en-EN" (GetLocaleValue.str "de-DE") 0
          (fun _ => { i18n := none })) 0).i18n =
      some { locale := (resolveLocale ["en-EN", "de-DE"] "en-EN"
          (GetLocaleValue.str "de-DE")) } :=
  (c7_request_isolation ["en-EN", "de-DE"] "en-EN" (GetLocaleValue.str "de-DE")
    (GetLocaleValue.str "tr-TR") 0 1 (fun _ => { i18n := none })
    (by decide)).2.1

/-- Claim C8: per request the middleware performs exactly one slot write
and the accessor performs none, so starting from an absent slot the single
bound value is reached and any number of downstream reads leaves it
unchanged. -/
theorem c8_single_write_lifecycle (locales : List String)
    (defaultLocale : String) (v : GetLocaleValue) (downstream : List SlotOp)
    (hreads : ∀ op ∈ downstream, op = SlotOp.read) :
    (middlewareSlotOps locales defaultLocale v).countP
        (fun op => op.isWrite) = 1 ∧
    getI18nSlotOps.countP (fun op => op.isWrite) = 0 ∧
    runSlotOps none (middlewareSlotOps locales defaultLocale v ++ downstream) =
      some { locale := resolveLocale locales defaultLocale v } := by
  have key : ∀ (l : List SlotOp) (s : Option I18nVar),
      (∀ op ∈ l, op = SlotOp.read) → l.foldl applySlotOp s = s := by
    intro l
    induction l with
    | nil => intro s _; rfl
    | cons op rest ih =>
        intro s h
        have hop := h op (List.mem_cons_self op rest)
        subst hop
        exact ih s fun o ho => h o (List.mem_cons_of_mem _ ho)
  refine ⟨rfl, rfl, ?_⟩
  show (middlewareSlotOps locales defaultLocale v ++ downstream).foldl
    applySlotOp none = _
  rw [List.foldl_append]
  exact key downstream _ hreads

/-- Concrete run of the C8 theorem: a write followed by two reads leaves
the bound locale in place. -/
theorem c8_single_write_lifecycle_witness :
    runSlotOps none
      (middlewareSlotOps ["en-EN", "de-DE"] "en-EN"
          (GetLocaleValue.str "de-DE") ++ [SlotOp.read, SlotOp.read]) =
      some { locale := (resolveLocale ["en-EN", "de-DE"] "en-EN"
          (GetLocaleValue.str "de-DE")) } :=
  (c8_single_write_lifecycle ["en-EN", "de-DE"] "en-EN"
    (GetLocaleValue.str "de-DE") [SlotOp.read, SlotOp.read] (by decide)).2.2

/-- Claim C9: after a successful construction, every locale the middleware
binds into the slot is a key of the catalog, so the accessor always hands
the external factory a catalog key together with the construction catalog. -/
theorem c9_bound_locale_is_catalog_key {M : Type} (messages : Messages M)
    (defaultLocale : String) (inst : I18nInstance M)
    (hok : createI18n messages defaultLocale = Except.ok inst)
    (v : GetLocaleValue) (c : ReqCtx) :
    ∃ l, (bindCtx inst.locales inst.defaultLocale v c).i18n =
        some { locale := l } ∧
      l ∈ keys messages ∧
      getI18n inst.messages (bindCtx inst.locales inst.defaultLocale v c) =
        Except.ok { messages := messages, locale := l } := by
  obtain ⟨hmsg, hloc, hdef, hmem⟩ :
      inst.messages = messages ∧ inst.locales = keys messages ∧
        inst.defaultLocale = defaultLocale ∧ defaultLocale ∈ keys messages := by
    unfold createI18n at hok
    split at hok
    case isTrue h =>
      cases hok
      exact ⟨rfl, rfl, rfl, by simpa using h⟩
    case isFalse h => cases hok
  refine ⟨resolveLocale inst.locales inst.defaultLocale v, rfl, ?_, ?_⟩
  · rw [hloc, hdef]
    cases v with
    | str s =>
        by_cases hs : s ∈ keys messages
        · simp [resolveLocale, hs]
        · simp [resolveLocale, hs, hmem]
    | nullValue => simpa [resolveLocale] using hmem
    | undefinedValue => simpa [resolveLocale] using hmem
  · simp [getI18n, bindCtx, createTranslate, hmsg]

/-- Concrete run of the C9 theorem: an unsupported signal binds the default
locale, which is a key of the test catalog, and the accessor passes it on. -/
theorem c9_bound_locale_is_catalog_key_witness :
    ∃ l, (bindCtx (keys demoMessages) "en-EN" (GetLocaleValue.str "tr-TR")
          { i18n := none }).i18n = some { locale := l } ∧
      l ∈ keys demoMessages ∧
      getI18n demoMessages
          (bindCtx (keys demoMessages) "en-EN" (GetLocaleValue.str "tr-TR")
            { i18n := none }) =
        Except.ok { messages := demoMessages, locale := l } :=
  c9_bound_locale_is_catalog_key demoMessages "en-EN"
    { messages := demoMessages
      locales := keys demoMessages
      defaultLocale := "en-EN" }
    rfl (GetLocaleValue.str "tr-TR") { i18n := none }

/-- Claim C10: with an empty supported-locales list resolution is still
total and never reaches an error branch: every getter value resolves to the
default locale, which the middleware binds before handing control to next. -/
theorem c10_empty_locales_total (defaultLocale : String) (v : GetLocaleValue)
    (c : ReqCtx) :
    resolveLocale [] defaultLocale v = defaultLocale ∧
    i18nMiddleware [] defaultLocale v c (fun cb => cb.i18n) =
      some { locale := defaultLocale } := by
  have h : resolveLocale [] defaultLocale v = defaultLocale := by
    cases v <;> rfl
  exact ⟨h, by simp [i18nMiddleware, bindCtx, h]⟩

end HonoI18n
